import Mathlib

/-!
# ReqIF stage-1 parser: a shallow embedding and verification

This file embeds the stage-1 ReqIF parser of `reqif/parser.py`
(class `ReqIFStage1Parser`) in Lean: the XML data model the parser
walks, the in-place namespace-stripping normalizer
(`strip_namespace_from_xml`), and `parse_reqif` itself, translated
branch-for-branch from the source.  Python exceptions become an
explicit error type with one constructor per raise/assert site; the
in-place tree mutation becomes explicit state passing, so `parse_reqif`
returns the bundle together with the tree as it is left after the call.

The leaf decoders (`DataTypeParser`, `SpecObjectTypeParser`,
`SpecObjectParser`, `SpecRelationParser`, `ReqIFSpecificationParser`)
and the `ReqIFBundle` container class live outside the given source
tree; they are modelled from the specification's interface contract:
a black-box decode of one XML element into a domain object exposing an
`identifier` field (and `source`/`target` fields for relations).
-/

/-- A possibly namespace-qualified XML tag.  lxml stores a qualified tag
as a single string holding the namespace URI and the local name;
we keep the two parts separate.  Taking the localname corresponds to
the source's `etree.QName(elem).localname`. -/
structure QTag where
  ns : Option String
  localname : String
deriving DecidableEq

/-- An XML element: tag, attributes, child elements, as seen by the
parser.  Text content plays no role in the stage-1 structural walk
and is not modelled. -/
inductive XmlElement where
  | elem (tag : QTag) (attributes : List (String × String)) (children : List XmlElement)

mutual
def XmlElement.decEq : (a b : XmlElement) → Decidable (a = b)
  | .elem t1 a1 c1, .elem t2 a2 c2 =>
    if ht : t1 = t2 then
      if ha : a1 = a2 then
        match XmlElement.decEqChildren c1 c2 with
        | .isTrue hc => .isTrue (by rw [ht, ha, hc])
        | .isFalse hc => .isFalse (fun h => by injection h; exact hc (by assumption))
      else .isFalse (fun h => by injection h; exact ha (by assumption))
    else .isFalse (fun h => by injection h; exact ht (by assumption))

def XmlElement.decEqChildren : (a b : List XmlElement) → Decidable (a = b)
  | [], [] => .isTrue rfl
  | [], _ :: _ => .isFalse (fun h => List.noConfusion h)
  | _ :: _, [] => .isFalse (fun h => List.noConfusion h)
  | x :: xs, y :: ys =>
    match XmlElement.decEq x y with
    | .isTrue hx =>
      match XmlElement.decEqChildren xs ys with
      | .isTrue hs => .isTrue (by rw [hx, hs])
      | .isFalse hs => .isFalse (fun h => by injection h; exact hs (by assumption))
    | .isFalse hx => .isFalse (fun h => by injection h; exact hx (by assumption))
end

instance : DecidableEq XmlElement := XmlElement.decEq

def XmlElement.tag : XmlElement → QTag
  | .elem t _ _ => t

def XmlElement.attributes : XmlElement → List (String × String)
  | .elem _ a _ => a

def XmlElement.children : XmlElement → List XmlElement
  | .elem _ _ c => c

/-- lxml `element.find(tag)` with a plain tag name: the first direct
child whose (fully qualified) tag equals the given unqualified name.
A child still carrying a namespace URI does not match. -/
def XmlElement.find (e : XmlElement) (t : String) : Option XmlElement :=
  e.children.find? (fun c => decide (c.tag = QTag.mk none t))

/-- Attribute lookup used by the modelled leaf decoders. -/
def XmlElement.attr (e : XmlElement) (k : String) : String :=
  ((e.attributes.find? (fun p => decide (p.1 = k))).map Prod.snd).getD ""

/-- A parsed XML document: the root element together with the root's
namespace map (`nsmap` in lxml: key `none` is the default namespace,
other keys are the declared short names). -/
structure XmlDocument where
  nsmap : List (Option String × String)
  root : XmlElement
deriving DecidableEq

/-- Python `nsmap[key]` as a total lookup returning `none` where the
dict raises `KeyError`. -/
def nsFind (m : List (Option String × String)) (k : Option String) : Option String :=
  (m.find? (fun p => decide (p.1 = k))).map Prod.snd

/-- One constructor per exception site of `parse_reqif`
(`reqif/parser.py`), so that distinct failure points of the source stay
distinguishable in the model. -/
inductive ParseError where
  /-- Python `namespace_info[...]` raising `KeyError` (lines 53-55). -/
  | keyError (key : Option String)
  /-- Source `raise NotImplementedError` if the root tag is not `REQ-IF` (line 67). -/
  | notImplementedRoot
  /-- Source `raise NotImplementedError(xml_core_content)` if `CORE-CONTENT` is absent (line 86). -/
  | notImplementedCoreContent
  /-- Source `assert xml_req_if_content is not None` (line 96). -/
  | assertionReqIfContent
  /-- Source `assert xml_data_types is not None` (line 99). -/
  | assertionDataTypes
  /-- Source `assert xml_spec_objects is not None` (line 116). -/
  | assertionSpecObjects
  /-- Source `assert xml_specifications is not None` (line 131). -/
  | assertionSpecifications
  /-- Source `raise NotImplementedError` if `SPEC-TYPES` or `SPEC-OBJECTS` is `None` (line 136). -/
  | notImplementedSpecTypesObjects
  /-- Python `UnboundLocalError`: line 142 reads `spec_type` before any
  iteration of the loop has assigned it. -/
  | unboundLocalSpecType
deriving DecidableEq

/-- Modelled from the spec: the domain object produced by the external
`DataTypeParser.parse` decoder — a black box exposing an `identifier`
field; the source element is carried along so distinct elements decode
to distinct objects. -/
structure ReqIFDataType where
  identifier : String
  xml : XmlElement
deriving DecidableEq

/-- Modelled from the spec: output of the external `SpecObjectTypeParser.parse`. -/
structure ReqIFSpecObjectType where
  identifier : String
  xml : XmlElement
deriving DecidableEq

/-- Modelled from the spec: output of the external `SpecObjectParser.parse`. -/
structure ReqIFSpecObject where
  identifier : String
  xml : XmlElement
deriving DecidableEq

/-- Modelled from the spec: output of the external `SpecRelationParser.parse`;
carries `source` and `target` spec-object identifiers. -/
structure ReqIFSpecRelation where
  identifier : String
  source : String
  target : String
  xml : XmlElement
deriving DecidableEq

/-- Modelled from the spec: output of the external `ReqIFSpecificationParser.parse`. -/
structure ReqIFSpecification where
  identifier : String
  xml : XmlElement
deriving DecidableEq

/-- Modelled from the spec: external leaf decoder for data-type definitions. -/
def DataTypeParser.parse (x : XmlElement) : ReqIFDataType :=
  ReqIFDataType.mk (x.attr "IDENTIFIER") x

/-- Modelled from the spec: external leaf decoder for spec-object types. -/
def SpecObjectTypeParser.parse (x : XmlElement) : ReqIFSpecObjectType :=
  ReqIFSpecObjectType.mk (x.attr "IDENTIFIER") x

/-- Modelled from the spec: external leaf decoder for spec objects. -/
def SpecObjectParser.parse (x : XmlElement) : ReqIFSpecObject :=
  ReqIFSpecObject.mk (x.attr "IDENTIFIER") x

/-- Modelled from the spec: external leaf decoder for spec relations. -/
def SpecRelationParser.parse (x : XmlElement) : ReqIFSpecRelation :=
  ReqIFSpecRelation.mk (x.attr "IDENTIFIER") (x.attr "SOURCE") (x.attr "TARGET") x

/-- Modelled from the spec: external leaf decoder for specifications. -/
def ReqIFSpecificationParser.parse (x : XmlElement) : ReqIFSpecification :=
  ReqIFSpecification.mk (x.attr "IDENTIFIER") x

/-- Modelled from the spec: `ReqIFReqIFContent` container (source
constructs it as `ReqIFReqIFContent(spec_objects=spec_objects)`). -/
structure ReqIFReqIFContent where
  spec_objects : List ReqIFSpecObject
deriving DecidableEq

/-- Modelled from the spec: `ReqIFCoreContent` container. -/
structure ReqIFCoreContent where
  req_if_content : ReqIFReqIFContent
deriving DecidableEq

/-- Python `dict` as an insertion-ordered association list:
`dict_set` models `d[k] = v` (overwrite in place, else append). -/
def dict_set (m : List (String × ReqIFSpecObject)) (k : String) (v : ReqIFSpecObject) :
    List (String × ReqIFSpecObject) :=
  match m with
  | [] => [(k, v)]
  | (k', v') :: rest =>
    if k' = k then (k', v) :: rest else (k', v') :: dict_set rest k v

/-- Python `dict` lookup `d[k]` (as an `Option`). -/
def dict_get (m : List (String × ReqIFSpecObject)) (k : String) : Option ReqIFSpecObject :=
  match m with
  | [] => none
  | (k', v') :: rest => if k' = k then some v' else dict_get rest k

/-- Python `defaultdict(list)`: `dd_append` models `d[k].append(v)`,
creating the entry with an empty list first when `k` is absent. -/
def dd_append (m : List (String × List String)) (k v : String) :
    List (String × List String) :=
  match m with
  | [] => [(k, [v])]
  | (k', vs) :: rest =>
    if k' = k then (k', vs ++ [v]) :: rest else (k', vs) :: dd_append rest k v

/-- Python `defaultdict(list)` read `d[k]`: an absent key yields `[]`,
never a lookup error. -/
def dd_get (m : List (String × List String)) (k : String) : List String :=
  match m with
  | [] => []
  | (k', vs) :: rest => if k' = k then vs else dd_get rest k

/-- The result container returned by `parse_reqif` (the class itself is
outside the given source tree; fields and their construction mirror the
constructor call at source lines 172-182).  `namespace_` stands for the
Python field named after the default-namespace URI. -/
structure ReqIFBundle where
  namespace_ : Option String
  configuration : Option String
  core_content : Option ReqIFCoreContent
  data_types : List ReqIFDataType
  spec_object_types : List ReqIFSpecObjectType
  spec_objects_lookup : List (String × ReqIFSpecObject)
  spec_relations : List ReqIFSpecRelation
  spec_relations_parent_lookup : List (String × List String)
  specifications : List ReqIFSpecification
deriving DecidableEq

/-- Modelled from the spec: `ReqIFBundle.create_empty` — the
empty-bundle terminal state: every collection and every mapping empty,
only the two namespace fields populated. -/
def ReqIFBundle.create_empty (ns configuration : Option String) : ReqIFBundle :=
  ReqIFBundle.mk ns configuration none [] [] [] [] [] []

/-- Modelled from the spec: the bundle's ordered `specObjects`
collection; the source stores it nested as
`core_content.req_if_content.spec_objects`. -/
def ReqIFBundle.specObjects (b : ReqIFBundle) : List ReqIFSpecObject :=
  match b.core_content with
  | none => []
  | some cc => cc.req_if_content.spec_objects

mutual
/-- Source lines 186-188: every element's tag is replaced by its
localname (the namespace part is dropped), recursively over the tree. -/
def strip_element : XmlElement → XmlElement
  | .elem t a c => .elem (QTag.mk none t.localname) a (strip_children c)

def strip_children : List XmlElement → List XmlElement
  | [] => []
  | c :: cs => strip_element c :: strip_children cs
end

/-- Source lines 184-192: in-place tag localization followed by
`etree.cleanup_namespaces`, which removes namespace declarations no
longer used anywhere in the tree.  After every tag has been localized
(and with attributes unqualified, as in this model), no declaration is
still used, so the namespace map becomes empty.  The mutation is
modelled by returning the new document value. -/
def ReqIFStage1Parser.strip_namespace_from_xml (doc : XmlDocument) : XmlDocument :=
  XmlDocument.mk [] (strip_element doc.root)

/-- Source lines 138-142.  The loop body appends `spec_type` OUTSIDE the
`if` that guards its assignment: a child whose tag is not
`SPEC-OBJECT-TYPE` re-appends the previously assigned `spec_type`
(stale value), and if no assignment has happened yet Python raises
`UnboundLocalError`.  The `Option` accumulator is the Python local
variable `spec_type`, unbound at entry. -/
def parse_spec_object_types :
    List XmlElement → Option ReqIFSpecObjectType →
    Except ParseError (List ReqIFSpecObjectType)
  | [], _ => .ok []
  | x :: xs, spec_type0 =>
    let spec_type :=
      if x.tag = QTag.mk none "SPEC-OBJECT-TYPE" then
        some (SpecObjectTypeParser.parse x)
      else spec_type0
    match spec_type with
    | none => .error .unboundLocalSpecType
    | some t =>
      match parse_spec_object_types xs (some t) with
      | .error e => .error e
      | .ok rest => .ok (t :: rest)

/-- Source lines 151-158: the spec-relations loop, appending each
decoded relation and accumulating the defaultdict from source to the
list of targets. -/
def parse_spec_relations_loop :
    List XmlElement → List ReqIFSpecRelation → List (String × List String) →
    List ReqIFSpecRelation × List (String × List String)
  | [], rels, lookup => (rels, lookup)
  | x :: xs, rels, lookup =>
    let spec_relation := SpecRelationParser.parse x
    parse_spec_relations_loop xs (rels ++ [spec_relation])
      (dd_append lookup spec_relation.source spec_relation.target)

/-- Source lines 160-165: the spec-objects loop, appending each decoded
object and writing it into the identifier index (plain dict overwrite:
last write wins). -/
def parse_spec_objects_loop :
    List XmlElement → List ReqIFSpecObject → List (String × ReqIFSpecObject) →
    List ReqIFSpecObject × List (String × ReqIFSpecObject)
  | [], objs, lookup => (objs, lookup)
  | x :: xs, objs, lookup =>
    let spec_object := SpecObjectParser.parse x
    parse_spec_objects_loop xs (objs ++ [spec_object])
      (dict_set lookup spec_object.identifier spec_object)

/-- Source lines 51-182: `ReqIFStage1Parser.parse_reqif`, translated
branch-for-branch.  Notes kept from the source:
the `if xml_reqif is None` check at line 64 is unreachable, because
line 53 already dereferenced the root; the transient
`data_types_lookup` map (lines 102-106) is a local never exposed on the
bundle and is omitted; the combined check at line 135 tests both
`SPEC-TYPES` and `SPEC-OBJECTS`, but `SPEC-OBJECTS` was already
asserted non-`None` at line 116, so only the `SPEC-TYPES` disjunct can
fire; the dead `if xml_specifications is not None` guard at line 144 is
dropped (line 131 asserted it).  Mutation of the tree is explicit: the
returned document is the tree as the call leaves it. -/
def ReqIFStage1Parser.parse_reqif (doc : XmlDocument) :
    Except ParseError (ReqIFBundle × XmlDocument) :=
  match nsFind doc.nsmap none with
  | none => .error (.keyError none)
  | some namespace_ =>
    match nsFind doc.nsmap (some "configuration") with
    | none => .error (.keyError (some "configuration"))
    | some configuration =>
      let doc' := ReqIFStage1Parser.strip_namespace_from_xml doc
      let xml_reqif := doc'.root
      if xml_reqif.tag ≠ QTag.mk none "REQ-IF" then .error .notImplementedRoot
      else if xml_reqif.children = [] then
        .ok (ReqIFBundle.create_empty (some namespace_) (some configuration), doc')
      else
        match xml_reqif.find "THE-HEADER" with
        | none =>
          .ok (ReqIFBundle.create_empty (some namespace_) (some configuration), doc')
        | some _xml_the_header =>
          match xml_reqif.find "CORE-CONTENT" with
          | none => .error .notImplementedCoreContent
          | some xml_core_content =>
            match xml_core_content.find "REQ-IF-CONTENT" with
            | none => .error .assertionReqIfContent
            | some xml_req_if_content =>
              match xml_req_if_content.find "DATATYPES" with
              | none => .error .assertionDataTypes
              | some xml_data_types =>
                let data_types := xml_data_types.children.map DataTypeParser.parse
                let xml_spec_types := xml_req_if_content.find "SPEC-TYPES"
                match xml_req_if_content.find "SPEC-OBJECTS" with
                | none => .error .assertionSpecObjects
                | some xml_spec_objects =>
                  let xml_spec_relations :=
                    match xml_req_if_content.find "SPEC-RELATIONS" with
                    | some e => e.children
                    | none => []
                  match xml_req_if_content.find "SPECIFICATIONS" with
                  | none => .error .assertionSpecifications
                  | some xml_specifications =>
                    match xml_spec_types with
                    | none => .error .notImplementedSpecTypesObjects
                    | some xml_spec_types_el =>
                      match parse_spec_object_types xml_spec_types_el.children none with
                      | .error e => .error e
                      | .ok spec_object_types =>
                        let specifications :=
                          xml_specifications.children.map ReqIFSpecificationParser.parse
                        let rl := parse_spec_relations_loop xml_spec_relations [] []
                        let ol := parse_spec_objects_loop xml_spec_objects.children [] []
                        .ok
                          (ReqIFBundle.mk (some namespace_) (some configuration)
                            (some (ReqIFCoreContent.mk (ReqIFReqIFContent.mk ol.1)))
                            data_types spec_object_types ol.2 rl.1 rl.2
                            specifications,
                          doc')

/-! ## Concrete documents used by the witnesses and counterexamples -/

/-- The ReqIF default namespace URI used by the concrete documents. -/
def reqifNs : String := "http://www.omg.org/spec/ReqIF/20110401/reqif.xsd"

/-- The tool-configuration namespace URI used by the concrete documents. -/
def configNs : String := "http://eclipse.org/rmf/pror/toolextensions/1.0"

/-- A root namespace map declaring both namespaces, as the input
contract expects. -/
def stdNsmap : List (Option String × String) :=
  [(none, reqifNs), (some "configuration", configNs)]

/-- An element of the ReqIF default namespace (as lxml sees it before
the normalizer runs: its tag still carries the namespace URI). -/
def el (t : String) (attrs : List (String × String)) (cs : List XmlElement) : XmlElement :=
  XmlElement.elem (QTag.mk (some reqifNs) t) attrs cs

/-- A document with both namespaces declared, a header, and the given
children placed under `REQ-IF-CONTENT`. -/
def mkContentDoc (cs : List XmlElement) : XmlDocument :=
  XmlDocument.mk stdNsmap
    (el "REQ-IF" []
      [el "THE-HEADER" [] [],
       el "CORE-CONTENT" [] [el "REQ-IF-CONTENT" [] cs]])

def dtSec (cs : List XmlElement) : XmlElement := el "DATATYPES" [] cs
def stSec (cs : List XmlElement) : XmlElement := el "SPEC-TYPES" [] cs
def soSec (cs : List XmlElement) : XmlElement := el "SPEC-OBJECTS" [] cs
def relSec (cs : List XmlElement) : XmlElement := el "SPEC-RELATIONS" [] cs
def specSec (cs : List XmlElement) : XmlElement := el "SPECIFICATIONS" [] cs

def dtEl (i : String) : XmlElement := el "DATATYPE-DEFINITION-STRING" [("IDENTIFIER", i)] []
def sotEl (i : String) : XmlElement := el "SPEC-OBJECT-TYPE" [("IDENTIFIER", i)] []
def soEl (i : String) : XmlElement := el "SPEC-OBJECT" [("IDENTIFIER", i)] []
def relEl (i s t : String) : XmlElement :=
  el "SPEC-RELATION" [("IDENTIFIER", i), ("SOURCE", s), ("TARGET", t)] []
def specEl (i : String) : XmlElement := el "SPECIFICATION" [("IDENTIFIER", i)] []


/-- The tag of a stripped element is its localname with no namespace part. -/
theorem strip_element_tag (e : XmlElement) :
    (strip_element e).tag = QTag.mk none e.tag.localname := by
  cases e with
  | elem t a c => rfl

/-! ## C1 / C8: documents exercising the SPEC-TYPES loop slip -/

def C1docA : XmlDocument :=
  mkContentDoc [dtSec [], stSec [sotEl "SOT-A1",
    el "SPEC-RELATION-TYPE" [("IDENTIFIER", "SRT-A")] []], soSec [], specSec []]

def C1docB : XmlDocument :=
  mkContentDoc [dtSec [], stSec [el "SPEC-RELATION-TYPE" [("IDENTIFIER", "SRT-B")] [],
    sotEl "SOT-B1"], soSec [], specSec []]

/-- C1: the claim says a SPEC-TYPES section holding one SPEC-OBJECT-TYPE
and one unrelated child yields `spec_object_types` of length 1 with the
unrelated child silently skipped.  The code instead appends the loop
variable on every iteration: with the unrelated child second, the
decoded SPEC-OBJECT-TYPE is appended twice (length 2); with the
unrelated child first, the loop reads the still-unassigned variable and
the parse crashes. -/
theorem C1_spec_types_loop_eval :
    (ReqIFStage1Parser.parse_reqif C1docA).toOption.map
        (fun p => p.1.spec_object_types) =
      some [SpecObjectTypeParser.parse (strip_element (sotEl "SOT-A1")),
            SpecObjectTypeParser.parse (strip_element (sotEl "SOT-A1"))] ∧
    ReqIFStage1Parser.parse_reqif C1docB = .error .unboundLocalSpecType :=
  ⟨rfl, rfl⟩

def C8doc : XmlDocument :=
  mkContentDoc [dtSec [], stSec [sotEl "SOT-C1",
    el "RELATION-GROUP-TYPE" [("IDENTIFIER", "RGT-C")] []], soSec [], specSec []]

def C8sot : ReqIFSpecObjectType :=
  SpecObjectTypeParser.parse (strip_element (sotEl "SOT-C1"))

def C8stChildren : List XmlElement :=
  strip_children [sotEl "SOT-C1", el "RELATION-GROUP-TYPE" [("IDENTIFIER", "RGT-C")] []]

/-- C8: on `C8doc` the parse succeeds, but `spec_object_types` is the
decoded SPEC-OBJECT-TYPE twice, while the decoded objects of the
SPEC-TYPES children in document order are that object once — so the
collection does not list the decoded objects in document order. -/
theorem C8_spec_object_types_order_eval :
    (ReqIFStage1Parser.parse_reqif C8doc).toOption.map
        (fun p => p.1.spec_object_types) = some [C8sot, C8sot] ∧
    (C8stChildren.filter
        (fun c => decide (c.tag = QTag.mk none "SPEC-OBJECT-TYPE"))).map
      SpecObjectTypeParser.parse = [C8sot] ∧
    [C8sot, C8sot] ≠ [C8sot] :=
  ⟨rfl, rfl, by decide⟩

/-! ## C5: missing namespace declarations -/

def C5doc1 : XmlDocument :=
  XmlDocument.mk [(some "configuration", configNs)] (el "REQ-IF" [] [])

def C5doc2 : XmlDocument :=
  XmlDocument.mk [(none, reqifNs)] (el "REQ-IF" [] [])

/-- C5 counterexample: a document whose root declares no default
namespace does not parse to a bundle with an absent namespace field;
`parse_reqif` fails at the namespace-map lookup (Python `KeyError`). -/
theorem C5_counterexample :
    ReqIFStage1Parser.parse_reqif C5doc1 = .error (.keyError none) := rfl

/-- C5 amended: a missing default-namespace declaration makes
`parse_reqif` fail with a `KeyError` on key `None`; with the default
namespace present but no `configuration` declaration it fails with a
`KeyError` on key `configuration`.  Missing declarations are not
tolerated. -/
theorem C5_missing_namespace_amended :
    (∀ doc : XmlDocument, nsFind doc.nsmap none = none →
      ReqIFStage1Parser.parse_reqif doc = .error (.keyError none)) ∧
    (∀ (doc : XmlDocument) (nsu : String), nsFind doc.nsmap none = some nsu →
      nsFind doc.nsmap (some "configuration") = none →
      ReqIFStage1Parser.parse_reqif doc = .error (.keyError (some "configuration"))) := by
  constructor
  · intro doc h
    simp only [ReqIFStage1Parser.parse_reqif, h]
  · intro doc nsu h1 h2
    simp only [ReqIFStage1Parser.parse_reqif, h1, h2]

/-- C5 witness: the amended statement applied to a concrete document
that declares only the default namespace. -/
theorem C5_missing_namespace_witness :
    ReqIFStage1Parser.parse_reqif C5doc2 = .error (.keyError (some "configuration")) :=
  C5_missing_namespace_amended.2 C5doc2 reqifNs rfl rfl

/-! ## C2: missing mandatory sections -/

def C2docNoSO : XmlDocument := mkContentDoc [dtSec [], stSec [], specSec []]

def C2docNoST : XmlDocument := mkContentDoc [dtSec [], soSec [], specSec []]

/-- C2 counterexample: the claim says a missing `SPEC-TYPES` or
`SPEC-OBJECTS` is checked and reported together as one fatal format
error.  In the code, a missing `SPEC-OBJECTS` already fails the
assertion at line 116, a different error than the joint
`NotImplementedError` at line 136, which a missing `SPEC-TYPES`
reaches — the two absences are reported by two different checks. -/
theorem C2_counterexample :
    ReqIFStage1Parser.parse_reqif C2docNoSO = .error .assertionSpecObjects ∧
    ReqIFStage1Parser.parse_reqif C2docNoST = .error .notImplementedSpecTypesObjects ∧
    ParseError.assertionSpecObjects ≠ ParseError.notImplementedSpecTypesObjects :=
  ⟨rfl, rfl, by decide⟩

/-! ## C4: unexpected root element -/

/-- C4: with both namespaces declared (the spec's input contract), a
root whose local tag is not `REQ-IF` makes `parse_reqif` fail with the
unexpected-root-element error; no bundle is returned. -/
theorem C4_unexpected_root (doc : XmlDocument) (nsu cfgu : String)
    (h1 : nsFind doc.nsmap none = some nsu)
    (h2 : nsFind doc.nsmap (some "configuration") = some cfgu)
    (hroot : doc.root.tag.localname ≠ "REQ-IF") :
    ReqIFStage1Parser.parse_reqif doc = .error .notImplementedRoot := by
  have h3 : QTag.mk none doc.root.tag.localname ≠ QTag.mk none "REQ-IF" :=
    fun h => hroot (congrArg QTag.localname h)
  simp only [ReqIFStage1Parser.parse_reqif, ReqIFStage1Parser.strip_namespace_from_xml,
    h1, h2, strip_element_tag]
  rw [if_pos h3]

def C4doc : XmlDocument := XmlDocument.mk stdNsmap (el "NOT-REQ-IF" [] [])

/-- C4 witness: the theorem applied to a concrete document whose root
tag is `NOT-REQ-IF`. -/
theorem C4_unexpected_root_witness :
    ReqIFStage1Parser.parse_reqif C4doc = .error .notImplementedRoot :=
  C4_unexpected_root C4doc reqifNs configNs rfl rfl (by decide)

/-! ## C3: empty-bundle terminal state -/

theorem strip_element_children (e : XmlElement) :
    (strip_element e).children = strip_children e.children := by
  cases e with
  | elem t a c => rfl

/-- If no direct child's local tag is `t`, the stripped element has no
child found under the plain tag `t`. -/
theorem find_strip_none (e : XmlElement) (t : String)
    (h : ∀ c ∈ e.children, c.tag.localname ≠ t) :
    (strip_element e).find t = none := by
  cases e with
  | elem tg a c =>
    simp only [XmlElement.find, strip_element, XmlElement.children]
    simp only [XmlElement.children] at h
    induction c with
    | nil => rfl
    | cons x xs ih =>
      simp only [strip_children, List.find?]
      have hx : ¬ (strip_element x).tag = QTag.mk none t := by
        rw [strip_element_tag]
        exact fun hh => (h x (by simp)) (congrArg QTag.localname hh)
      rw [decide_eq_false hx]
      simp only [cond_false]
      exact ih (fun c hc => h c (by simp [hc]))

/-- C3: a document whose root is `REQ-IF` but has zero children, or no
`THE-HEADER` direct child, parses successfully to the empty bundle:
every ordered collection and every mapping is empty, while the
namespace and configuration fields are populated from the root's
namespace declarations. -/
theorem C3_empty_bundle (doc : XmlDocument) (nsu cfgu : String)
    (h1 : nsFind doc.nsmap none = some nsu)
    (h2 : nsFind doc.nsmap (some "configuration") = some cfgu)
    (hroot : doc.root.tag.localname = "REQ-IF")
    (hempty : doc.root.children = [] ∨
      (∀ c ∈ doc.root.children, c.tag.localname ≠ "THE-HEADER")) :
    ReqIFStage1Parser.parse_reqif doc =
      .ok (ReqIFBundle.create_empty (some nsu) (some cfgu),
        ReqIFStage1Parser.strip_namespace_from_xml doc) ∧
    (ReqIFBundle.create_empty (some nsu) (some cfgu)).data_types = [] ∧
    (ReqIFBundle.create_empty (some nsu) (some cfgu)).spec_object_types = [] ∧
    (ReqIFBundle.create_empty (some nsu) (some cfgu)).specObjects = [] ∧
    (ReqIFBundle.create_empty (some nsu) (some cfgu)).specifications = [] ∧
    (ReqIFBundle.create_empty (some nsu) (some cfgu)).spec_relations = [] ∧
    (ReqIFBundle.create_empty (some nsu) (some cfgu)).spec_objects_lookup = [] ∧
    (ReqIFBundle.create_empty (some nsu) (some cfgu)).spec_relations_parent_lookup = [] ∧
    (ReqIFBundle.create_empty (some nsu) (some cfgu)).namespace_ = some nsu ∧
    (ReqIFBundle.create_empty (some nsu) (some cfgu)).configuration = some cfgu := by
  refine ⟨?_, rfl, rfl, rfl, rfl, rfl, rfl, rfl, rfl, rfl⟩
  simp only [ReqIFStage1Parser.parse_reqif, ReqIFStage1Parser.strip_namespace_from_xml,
    h1, h2, strip_element_tag, hroot]
  simp only [ne_eq, not_true_eq_false, if_false, ite_not]
  rcases hempty with hc | hh
  · have hc' : (strip_element doc.root).children = [] := by
      rw [strip_element_children, hc]; rfl
    simp [hc']
  · have hf : (strip_element doc.root).find "THE-HEADER" = none :=
      find_strip_none doc.root "THE-HEADER" hh
    by_cases hc : (strip_element doc.root).children = []
    · simp [hc]
    · simp [hc, hf]

def C3doc : XmlDocument := XmlDocument.mk stdNsmap (el "REQ-IF" [] [])

/-- C3 witness: the theorem applied to a concrete childless `REQ-IF`
document. -/
theorem C3_empty_bundle_witness :
    ReqIFStage1Parser.parse_reqif C3doc =
      .ok (ReqIFBundle.create_empty (some reqifNs) (some configNs),
        ReqIFStage1Parser.strip_namespace_from_xml C3doc) :=
  (C3_empty_bundle C3doc reqifNs configNs rfl rfl rfl (Or.inl rfl)).1

/-- C2 amended: with a header present, each missing mandatory section
makes `parse_reqif` fail at that section's own check, with an error
identifying the check site: missing `CORE-CONTENT`, `REQ-IF-CONTENT`,
`DATATYPES`, `SPEC-OBJECTS`, `SPECIFICATIONS` each fail their own
raise/assert, and the combined SPEC-TYPES/SPEC-OBJECTS check at the end
only ever fires for a missing `SPEC-TYPES`, because a missing
`SPEC-OBJECTS` was already reported by the earlier assertion — the two
are not reported together by one error. -/
theorem C2_missing_section_amended (doc : XmlDocument) (nsu cfgu : String) (hdr : XmlElement)
    (h1 : nsFind doc.nsmap none = some nsu)
    (h2 : nsFind doc.nsmap (some "configuration") = some cfgu)
    (hroot : (strip_element doc.root).tag = QTag.mk none "REQ-IF")
    (hch : (strip_element doc.root).children ≠ [])
    (hhdr : (strip_element doc.root).find "THE-HEADER" = some hdr) :
    ((strip_element doc.root).find "CORE-CONTENT" = none →
      ReqIFStage1Parser.parse_reqif doc = .error .notImplementedCoreContent) ∧
    (∀ cc, (strip_element doc.root).find "CORE-CONTENT" = some cc →
      cc.find "REQ-IF-CONTENT" = none →
      ReqIFStage1Parser.parse_reqif doc = .error .assertionReqIfContent) ∧
    (∀ cc ric, (strip_element doc.root).find "CORE-CONTENT" = some cc →
      cc.find "REQ-IF-CONTENT" = some ric →
      ric.find "DATATYPES" = none →
      ReqIFStage1Parser.parse_reqif doc = .error .assertionDataTypes) ∧
    (∀ cc ric dts, (strip_element doc.root).find "CORE-CONTENT" = some cc →
      cc.find "REQ-IF-CONTENT" = some ric →
      ric.find "DATATYPES" = some dts →
      ric.find "SPEC-OBJECTS" = none →
      ReqIFStage1Parser.parse_reqif doc = .error .assertionSpecObjects) ∧
    (∀ cc ric dts sos, (strip_element doc.root).find "CORE-CONTENT" = some cc →
      cc.find "REQ-IF-CONTENT" = some ric →
      ric.find "DATATYPES" = some dts →
      ric.find "SPEC-OBJECTS" = some sos →
      ric.find "SPECIFICATIONS" = none →
      ReqIFStage1Parser.parse_reqif doc = .error .assertionSpecifications) ∧
    (∀ cc ric dts sos specs, (strip_element doc.root).find "CORE-CONTENT" = some cc →
      cc.find "REQ-IF-CONTENT" = some ric →
      ric.find "DATATYPES" = some dts →
      ric.find "SPEC-OBJECTS" = some sos →
      ric.find "SPECIFICATIONS" = some specs →
      ric.find "SPEC-TYPES" = none →
      ReqIFStage1Parser.parse_reqif doc = .error .notImplementedSpecTypesObjects) := by
  refine ⟨?_, ?_, ?_, ?_, ?_, ?_⟩
  · intro hcc
    simp [ReqIFStage1Parser.parse_reqif, ReqIFStage1Parser.strip_namespace_from_xml,
      h1, h2, hroot, hch, hhdr, hcc]
  · intro cc hcc hric
    simp [ReqIFStage1Parser.parse_reqif, ReqIFStage1Parser.strip_namespace_from_xml,
      h1, h2, hroot, hch, hhdr, hcc, hric]
  · intro cc ric hcc hric hdt
    simp [ReqIFStage1Parser.parse_reqif, ReqIFStage1Parser.strip_namespace_from_xml,
      h1, h2, hroot, hch, hhdr, hcc, hric, hdt]
  · intro cc ric dts hcc hric hdt hso
    simp [ReqIFStage1Parser.parse_reqif, ReqIFStage1Parser.strip_namespace_from_xml,
      h1, h2, hroot, hch, hhdr, hcc, hric, hdt, hso]
  · intro cc ric dts sos hcc hric hdt hso hsp
    simp [ReqIFStage1Parser.parse_reqif, ReqIFStage1Parser.strip_namespace_from_xml,
      h1, h2, hroot, hch, hhdr, hcc, hric, hdt, hso, hsp]
  · intro cc ric dts sos specs hcc hric hdt hso hsp hst
    simp [ReqIFStage1Parser.parse_reqif, ReqIFStage1Parser.strip_namespace_from_xml,
      h1, h2, hroot, hch, hhdr, hcc, hric, hdt, hso, hsp, hst]

def C2docA : XmlDocument := XmlDocument.mk stdNsmap (el "REQ-IF" [] [el "THE-HEADER" [] []])

def C2docB : XmlDocument :=
  XmlDocument.mk stdNsmap (el "REQ-IF" [] [el "THE-HEADER" [] [], el "CORE-CONTENT" [] []])

def C2docC : XmlDocument := mkContentDoc []

def C2docD : XmlDocument := mkContentDoc [dtSec []]

def C2docE : XmlDocument := mkContentDoc [dtSec [], soSec []]

/-- C2 witness: the amended theorem applied to six concrete documents,
one per missing section. -/
theorem C2_missing_section_witness :
    ReqIFStage1Parser.parse_reqif C2docA = .error .notImplementedCoreContent ∧
    ReqIFStage1Parser.parse_reqif C2docB = .error .assertionReqIfContent ∧
    ReqIFStage1Parser.parse_reqif C2docC = .error .assertionDataTypes ∧
    ReqIFStage1Parser.parse_reqif C2docD = .error .assertionSpecObjects ∧
    ReqIFStage1Parser.parse_reqif C2docE = .error .assertionSpecifications ∧
    ReqIFStage1Parser.parse_reqif C2docNoST = .error .notImplementedSpecTypesObjects :=
  ⟨(C2_missing_section_amended C2docA reqifNs configNs
      (strip_element (el "THE-HEADER" [] [])) rfl rfl rfl (by decide) rfl).1 rfl,
   (C2_missing_section_amended C2docB reqifNs configNs
      (strip_element (el "THE-HEADER" [] [])) rfl rfl rfl (by decide) rfl).2.1
      (strip_element (el "CORE-CONTENT" [] [])) rfl rfl,
   (C2_missing_section_amended C2docC reqifNs configNs
      (strip_element (el "THE-HEADER" [] [])) rfl rfl rfl (by decide) rfl).2.2.1
      (strip_element (el "CORE-CONTENT" [] [el "REQ-IF-CONTENT" [] []]))
      (strip_element (el "REQ-IF-CONTENT" [] [])) rfl rfl rfl,
   (C2_missing_section_amended C2docD reqifNs configNs
      (strip_element (el "THE-HEADER" [] [])) rfl rfl rfl (by decide) rfl).2.2.2.1
      (strip_element (el "CORE-CONTENT" [] [el "REQ-IF-CONTENT" [] [dtSec []]]))
      (strip_element (el "REQ-IF-CONTENT" [] [dtSec []]))
      (strip_element (dtSec [])) rfl rfl rfl rfl,
   (C2_missing_section_amended C2docE reqifNs configNs
      (strip_element (el "THE-HEADER" [] [])) rfl rfl rfl (by decide) rfl).2.2.2.2.1
      (strip_element (el "CORE-CONTENT" [] [el "REQ-IF-CONTENT" [] [dtSec [], soSec []]]))
      (strip_element (el "REQ-IF-CONTENT" [] [dtSec [], soSec []]))
      (strip_element (dtSec [])) (strip_element (soSec [])) rfl rfl rfl rfl rfl,
   (C2_missing_section_amended C2docNoST reqifNs configNs
      (strip_element (el "THE-HEADER" [] [])) rfl rfl rfl (by decide) rfl).2.2.2.2.2
      (strip_element (el "CORE-CONTENT" []
        [el "REQ-IF-CONTENT" [] [dtSec [], soSec [], specSec []]]))
      (strip_element (el "REQ-IF-CONTENT" [] [dtSec [], soSec [], specSec []]))
      (strip_element (dtSec [])) (strip_element (soSec []))
      (strip_element (specSec [])) rfl rfl rfl rfl rfl rfl⟩

/-- C6: in an otherwise-valid document whose SPEC-OBJECTS section has
exactly two children decoding to the same identifier, `parse_reqif`
succeeds; both objects appear in the ordered `specObjects` sequence
(length 2) while the identifier index holds exactly one entry for that
identifier, resolving to the later element in document order (last
write wins). -/
theorem C6_duplicate_identifier (doc : XmlDocument) (nsu cfgu : String)
    (hdr cc ric dts sts sos specs : XmlElement) (sots : List ReqIFSpecObjectType)
    (x1 x2 : XmlElement)
    (h1 : nsFind doc.nsmap none = some nsu)
    (h2 : nsFind doc.nsmap (some "configuration") = some cfgu)
    (hroot : (strip_element doc.root).tag = QTag.mk none "REQ-IF")
    (hch : (strip_element doc.root).children ≠ [])
    (hhdr : (strip_element doc.root).find "THE-HEADER" = some hdr)
    (hcc : (strip_element doc.root).find "CORE-CONTENT" = some cc)
    (hric : cc.find "REQ-IF-CONTENT" = some ric)
    (hdt : ric.find "DATATYPES" = some dts)
    (hst : ric.find "SPEC-TYPES" = some sts)
    (hso : ric.find "SPEC-OBJECTS" = some sos)
    (hsp : ric.find "SPECIFICATIONS" = some specs)
    (hsot : parse_spec_object_types sts.children none = .ok sots)
    (hsoch : sos.children = [x1, x2])
    (hid : (SpecObjectParser.parse x1).identifier = (SpecObjectParser.parse x2).identifier) :
    (ReqIFStage1Parser.parse_reqif doc).toOption.isSome = true ∧
    (ReqIFStage1Parser.parse_reqif doc).toOption.map (fun p => p.1.specObjects) =
      some [SpecObjectParser.parse x1, SpecObjectParser.parse x2] ∧
    (ReqIFStage1Parser.parse_reqif doc).toOption.map
        (fun p => p.1.spec_objects_lookup.length) = some 1 ∧
    (ReqIFStage1Parser.parse_reqif doc).toOption.map
        (fun p => dict_get p.1.spec_objects_lookup ((SpecObjectParser.parse x2).identifier)) =
      some (some (SpecObjectParser.parse x2)) := by
  have hloop : parse_spec_objects_loop [x1, x2] [] [] =
      ([SpecObjectParser.parse x1, SpecObjectParser.parse x2],
       [((SpecObjectParser.parse x2).identifier, SpecObjectParser.parse x2)]) := by
    simp [parse_spec_objects_loop, dict_set, hid]
  simp [ReqIFStage1Parser.parse_reqif, ReqIFStage1Parser.strip_namespace_from_xml,
    h1, h2, hroot, hch, hhdr, hcc, hric, hdt, hst, hso, hsp, hsot, hsoch, hloop,
    ReqIFBundle.specObjects, dict_get, Except.toOption]

def C6x1 : XmlElement := soEl "SO-DUP"

def C6x2 : XmlElement := el "SPEC-OBJECT" [("IDENTIFIER", "SO-DUP"), ("POS", "2")] []

def C6doc : XmlDocument := mkContentDoc [dtSec [], stSec [], soSec [C6x1, C6x2], specSec []]

/-- C6 witness: the theorem applied to a concrete document with two
spec objects sharing identifier `SO-DUP`; the index resolves to the
second one. -/
theorem C6_duplicate_identifier_witness :
    (ReqIFStage1Parser.parse_reqif C6doc).toOption.map
        (fun p => dict_get p.1.spec_objects_lookup
          ((SpecObjectParser.parse (strip_element C6x2)).identifier)) =
      some (some (SpecObjectParser.parse (strip_element C6x2))) :=
  (C6_duplicate_identifier C6doc reqifNs configNs
    (strip_element (el "THE-HEADER" [] []))
    (strip_element (el "CORE-CONTENT" []
      [el "REQ-IF-CONTENT" [] [dtSec [], stSec [], soSec [C6x1, C6x2], specSec []]]))
    (strip_element (el "REQ-IF-CONTENT" [] [dtSec [], stSec [], soSec [C6x1, C6x2], specSec []]))
    (strip_element (dtSec [])) (strip_element (stSec []))
    (strip_element (soSec [C6x1, C6x2])) (strip_element (specSec []))
    [] (strip_element C6x1) (strip_element C6x2)
    rfl rfl rfl (by decide) rfl rfl rfl rfl rfl rfl rfl rfl rfl rfl).2.2.2

/-- C7: an otherwise-valid document with no SPEC-RELATIONS section
parses successfully, with an empty `spec_relations` sequence and an
empty relation-targets-by-source mapping. -/
theorem C7_no_spec_relations (doc : XmlDocument) (nsu cfgu : String)
    (hdr cc ric dts sts sos specs : XmlElement) (sots : List ReqIFSpecObjectType)
    (h1 : nsFind doc.nsmap none = some nsu)
    (h2 : nsFind doc.nsmap (some "configuration") = some cfgu)
    (hroot : (strip_element doc.root).tag = QTag.mk none "REQ-IF")
    (hch : (strip_element doc.root).children ≠ [])
    (hhdr : (strip_element doc.root).find "THE-HEADER" = some hdr)
    (hcc : (strip_element doc.root).find "CORE-CONTENT" = some cc)
    (hric : cc.find "REQ-IF-CONTENT" = some ric)
    (hdt : ric.find "DATATYPES" = some dts)
    (hst : ric.find "SPEC-TYPES" = some sts)
    (hso : ric.find "SPEC-OBJECTS" = some sos)
    (hsp : ric.find "SPECIFICATIONS" = some specs)
    (hrel : ric.find "SPEC-RELATIONS" = none)
    (hsot : parse_spec_object_types sts.children none = .ok sots) :
    (ReqIFStage1Parser.parse_reqif doc).toOption.isSome = true ∧
    (ReqIFStage1Parser.parse_reqif doc).toOption.map (fun p => p.1.spec_relations) =
      some [] ∧
    (ReqIFStage1Parser.parse_reqif doc).toOption.map
        (fun p => p.1.spec_relations_parent_lookup) = some [] := by
  simp [ReqIFStage1Parser.parse_reqif, ReqIFStage1Parser.strip_namespace_from_xml,
    h1, h2, hroot, hch, hhdr, hcc, hric, hdt, hst, hso, hsp, hrel, hsot,
    parse_spec_relations_loop, Except.toOption]

def C7doc : XmlDocument := mkContentDoc [dtSec [], stSec [], soSec [], specSec []]

/-- C7 witness: the theorem applied to a concrete document without a
SPEC-RELATIONS section. -/
theorem C7_no_spec_relations_witness :
    (ReqIFStage1Parser.parse_reqif C7doc).toOption.map (fun p => p.1.spec_relations) =
      some [] ∧
    (ReqIFStage1Parser.parse_reqif C7doc).toOption.map
        (fun p => p.1.spec_relations_parent_lookup) = some [] :=
  ⟨(C7_no_spec_relations C7doc reqifNs configNs
      (strip_element (el "THE-HEADER" [] []))
      (strip_element (el "CORE-CONTENT" []
        [el "REQ-IF-CONTENT" [] [dtSec [], stSec [], soSec [], specSec []]]))
      (strip_element (el "REQ-IF-CONTENT" [] [dtSec [], stSec [], soSec [], specSec []]))
      (strip_element (dtSec [])) (strip_element (stSec []))
      (strip_element (soSec [])) (strip_element (specSec [])) []
      rfl rfl rfl (by decide) rfl rfl rfl rfl rfl rfl rfl rfl rfl).2.1,
   (C7_no_spec_relations C7doc reqifNs configNs
      (strip_element (el "THE-HEADER" [] []))
      (strip_element (el "CORE-CONTENT" []
        [el "REQ-IF-CONTENT" [] [dtSec [], stSec [], soSec [], specSec []]]))
      (strip_element (el "REQ-IF-CONTENT" [] [dtSec [], stSec [], soSec [], specSec []]))
      (strip_element (dtSec [])) (strip_element (stSec []))
      (strip_element (soSec [])) (strip_element (specSec [])) []
      rfl rfl rfl (by decide) rfl rfl rfl rfl rfl rfl rfl rfl rfl).2.2⟩

/-- Shared shape of every successful parse: the returned document is
the stripped (mutated) tree, and the relation collections are the two
components of the relations loop run on some list of child elements. -/
theorem parse_reqif_ok_shape (doc : XmlDocument) (b : ReqIFBundle) (d' : XmlDocument)
    (h : ReqIFStage1Parser.parse_reqif doc = .ok (b, d')) :
    d' = ReqIFStage1Parser.strip_namespace_from_xml doc ∧
    ∃ xs, b.spec_relations = (parse_spec_relations_loop xs [] []).1 ∧
      b.spec_relations_parent_lookup = (parse_spec_relations_loop xs [] []).2 := by
  simp only [ReqIFStage1Parser.parse_reqif] at h
  repeat' split at h
  all_goals first
    | exact Except.noConfusion h
    | (injection h with h1; injection h1 with hb hd; subst hb; subst hd;
       first
        | exact ⟨rfl, [], rfl, rfl⟩
        | exact ⟨rfl, _, rfl, rfl⟩)

/-- C9 amended: `parse_reqif` is a pure function of the document value,
so parsing two separately materialized copies of the same document
yields structurally equal bundles; but invoking it twice in sequence on
the same tree is not idempotent: every successful parse strips the
namespace declarations from the tree in place, so a second invocation
on the tree it leaves behind fails at the namespace lookup. -/
theorem C9_repeat_parse_amended (doc : XmlDocument) (b : ReqIFBundle) (d' : XmlDocument)
    (h : ReqIFStage1Parser.parse_reqif doc = .ok (b, d')) :
    ReqIFStage1Parser.parse_reqif d' = .error (.keyError none) := by
  obtain ⟨hd, -⟩ := parse_reqif_ok_shape doc b d' h
  subst hd
  rfl

def C9doc : XmlDocument := mkContentDoc [dtSec [], stSec [], soSec [soEl "SO-1"], specSec []]

/-- C9 counterexample: on a concrete document the first parse succeeds
and leaves behind the stripped tree; running `parse_reqif` again on
that same tree does not yield a structurally equal bundle — it yields
no bundle at all, failing with a `KeyError` on the now-removed default
namespace declaration. -/
theorem C9_counterexample :
    (ReqIFStage1Parser.parse_reqif C9doc).toOption.isSome = true ∧
    (ReqIFStage1Parser.parse_reqif C9doc).toOption.map (fun p => p.2) =
      some (ReqIFStage1Parser.strip_namespace_from_xml C9doc) ∧
    ReqIFStage1Parser.parse_reqif (ReqIFStage1Parser.strip_namespace_from_xml C9doc) =
      .error (.keyError none) :=
  ⟨rfl, rfl, rfl⟩

/-- C9 witness: the amended theorem applied to the concrete document
`C9doc`, whose first parse succeeds. -/
theorem C9_repeat_parse_witness :
    ReqIFStage1Parser.parse_reqif (ReqIFStage1Parser.strip_namespace_from_xml C9doc) =
      .error (.keyError none) :=
  C9_repeat_parse_amended C9doc _ _ rfl

theorem dd_get_dd_append_ne (m : List (String × List String)) (k v k' : String)
    (h : k ≠ k') :
    dd_get (dd_append m k v) k' = dd_get m k' := by
  induction m with
  | nil => simp [dd_append, dd_get, h]
  | cons p rest ih =>
    obtain ⟨pk, pvs⟩ := p
    by_cases hpk : pk = k
    · subst hpk
      simp [dd_append, dd_get, h]
    · simp [dd_append, dd_get, hpk, ih]

theorem parse_spec_relations_loop_fst (xs : List XmlElement)
    (rels : List ReqIFSpecRelation) (lk : List (String × List String)) :
    (parse_spec_relations_loop xs rels lk).1 = rels ++ xs.map SpecRelationParser.parse := by
  induction xs generalizing rels lk with
  | nil => simp [parse_spec_relations_loop]
  | cons x xs ih => simp [parse_spec_relations_loop, ih]

theorem parse_spec_relations_loop_get (xs : List XmlElement)
    (rels : List ReqIFSpecRelation) (lk : List (String × List String)) (k : String)
    (h : ∀ x ∈ xs, (SpecRelationParser.parse x).source ≠ k) :
    dd_get (parse_spec_relations_loop xs rels lk).2 k = dd_get lk k := by
  induction xs generalizing rels lk with
  | nil => rfl
  | cons x xs ih =>
    simp only [parse_spec_relations_loop]
    rw [ih _ _ (fun y hy => h y (by simp [hy]))]
    exact dd_get_dd_append_ne lk _ _ k (h x (by simp))

/-- C10: the relation-targets-by-source mapping of any successfully
parsed bundle is default-empty — looking up any source identifier that
no decoded relation has as its source (including identifiers appearing
nowhere in the document) yields the empty sequence, not a lookup
failure. -/
theorem C10_default_lookup (doc : XmlDocument) (b : ReqIFBundle) (d' : XmlDocument)
    (k : String)
    (h : ReqIFStage1Parser.parse_reqif doc = .ok (b, d'))
    (hk : ∀ r ∈ b.spec_relations, r.source ≠ k) :
    dd_get b.spec_relations_parent_lookup k = [] := by
  obtain ⟨-, xs, hrels, hlk⟩ := parse_reqif_ok_shape doc b d' h
  rw [hlk, parse_spec_relations_loop_get]
  · rfl
  · intro x hx
    refine hk _ ?_
    rw [hrels, parse_spec_relations_loop_fst]
    simp only [List.nil_append, List.mem_map]
    exact ⟨x, hx, rfl⟩

def C10doc : XmlDocument :=
  mkContentDoc [dtSec [], stSec [], soSec [soEl "SO-1", soEl "SO-2"],
    relSec [relEl "R-1" "SO-1" "SO-2"], specSec []]

def C10bundle : ReqIFBundle :=
  ReqIFBundle.mk (some reqifNs) (some configNs)
    (some (ReqIFCoreContent.mk (ReqIFReqIFContent.mk
      [SpecObjectParser.parse (strip_element (soEl "SO-1")),
       SpecObjectParser.parse (strip_element (soEl "SO-2"))])))
    [] []
    [("SO-1", SpecObjectParser.parse (strip_element (soEl "SO-1"))),
     ("SO-2", SpecObjectParser.parse (strip_element (soEl "SO-2")))]
    [SpecRelationParser.parse (strip_element (relEl "R-1" "SO-1" "SO-2"))]
    [("SO-1", ["SO-2"])]
    []

/-- C10 witness: the theorem applied to a concrete parsed document and
an identifier appearing nowhere in it. -/
theorem C10_default_lookup_witness :
    dd_get C10bundle.spec_relations_parent_lookup "SO-MISSING" = [] :=
  C10_default_lookup C10doc C10bundle
    (ReqIFStage1Parser.strip_namespace_from_xml C10doc) "SO-MISSING"
    (by rfl) (by decide)
